import Mathlib

/-!
Verification development for the easypanel-cron repository.

The repository ships a multi-job cron runner (its current `main.go`,
given here as `src/unnamed/part_001` / `part_002`, two revisions with
identical code) and a legacy single-job runner (`src/main.go`).  The
Go sources are shallowly embedded below: the process environment is a
total map from key to value (Go's `os.Getenv` returns `""` for unset
variables), the configuration loader and the two job closures are pure
functions, and the lifecycle (signal handling and graceful shutdown)
is a small explicit transition system.
-/

namespace EasypanelCron

/-- The process environment.  `os.Getenv k` is `env k`; an unset
variable reads as the empty string, exactly as in Go. -/
def Env : Type := String → String

/-- Key `CRON_SCHEDULE_i` (part_001 line 41). -/
def scheduleKey (i : Nat) : String := "CRON_SCHEDULE_" ++ toString i

/-- Key `JOB_TYPE_i` (part_001 line 49). -/
def jobTypeKey (i : Nat) : String := "JOB_TYPE_" ++ toString i

/-- Key `JOB_NAME_i` (part_001 line 54). -/
def jobNameKey (i : Nat) : String := "JOB_NAME_" ++ toString i

/-- Key `CRON_TARGET_URL_i` (part_001 line 69). -/
def targetURLKey (i : Nat) : String := "CRON_TARGET_URL_" ++ toString i

/-- Key `CRON_SECRET_i` (part_001 line 70). -/
def secretKey (i : Nat) : String := "CRON_SECRET_" ++ toString i

/-- Key `SHELL_COMMAND_i` (part_001 line 78). -/
def shellCommandKey (i : Nat) : String := "SHELL_COMMAND_" ++ toString i

/-- Key `SHELL_TARGET_CONTAINER_i` (part_001 line 82). -/
def shellContainerKey (i : Nat) : String := "SHELL_TARGET_CONTAINER_" ++ toString i

/-- `Config` holds the configuration for a single cron job
(part_001 lines 21–33). -/
structure Config where
  name : String
  schedule : String
  jobType : String
  targetURL : String
  secretToken : String
  shellCommand : String
  shellTargetContainer : String
deriving Repr, DecidableEq

/-- Structured log levels of the slog logger used by the runner. -/
inductive LogLevel where
  | info
  | warn
  | error
deriving Repr, DecidableEq

/-- One structured log event: level, message, key/value fields. -/
structure LogEvent where
  level : LogLevel
  msg : String
  fields : List (String × String)
deriving Repr, DecidableEq

/-- Job type defaulting (part_001 lines 49–52): an unset or empty
`JOB_TYPE_i` means `"http"`. -/
def jobTypeOf (env : Env) (i : Nat) : String :=
  let t := env (jobTypeKey i)
  if t = "" then "http" else t

/-- Job name defaulting (part_001 lines 54–57): an unset or empty
`JOB_NAME_i` means `job_#i`. -/
def jobNameOf (env : Env) (i : Nat) : String :=
  let n := env (jobNameKey i)
  if n = "" then "job_#" ++ toString i else n

/-- The per-index body of `loadConfigs` (part_001 lines 59–90): builds
the candidate `Config` for index `i` and computes the final value of
`validationError` after the type switch.  In the `"http"` case the Go
code runs the URL check and then the secret check, so when both fields
are missing the surviving error is the secret one. -/
def validateIndex (env : Env) (i : Nat) : Option String × Config :=
  let jt := jobTypeOf env i
  let base : Config :=
    { name := jobNameOf env i
      schedule := env (scheduleKey i)
      jobType := jt
      targetURL := ""
      secretToken := ""
      shellCommand := ""
      shellTargetContainer := "" }
  if jt = "http" then
    let url := env (targetURLKey i)
    let sec := env (secretKey i)
    let e1 : Option String :=
      if url = "" then some "CRON_TARGET_URL is required" else none
    let e2 : Option String :=
      if sec = "" then some "CRON_SECRET is required" else e1
    (e2, { base with targetURL := url, secretToken := sec })
  else if jt = "shell" then
    let c := env (shellCommandKey i)
    let e : Option String :=
      if c = "" then some "SHELL_COMMAND is required" else none
    (e, { base with shellCommand := c,
                    shellTargetContainer := env (shellContainerKey i) })
  else
    (some ("unknown JOB_TYPE: " ++ jt), base)

/-- The config appended for index `i`, when its validation passes
(part_001 lines 87–92). -/
def acceptIndex (env : Env) (i : Nat) : Option Config :=
  match validateIndex env i with
  | (none, c) => some c
  | (some _, _) => none

/-- The single log event `loadConfigs` emits for a processed index
(part_001 lines 88 and 93): an error-level skip event for an invalid
job, an info-level loaded event for a valid one. -/
def indexLog (env : Env) (i : Nat) : LogEvent :=
  match validateIndex env i with
  | (some e, c) =>
      { level := .error
        msg := "Skipping invalid job configuration"
        fields := [("job_name", c.name), ("reason", e)] }
  | (none, c) =>
      { level := .info
        msg := "Successfully loaded job configuration"
        fields := [("job_name", c.name), ("schedule", c.schedule),
                   ("type", c.jobType)] }

/-- The index loop of `loadConfigs` (part_001 lines 40–94), starting
at index `i`.  The Go loop is unbounded (`for i := 1; ; i++`) and
terminates when `CRON_SCHEDULE_i` is unset; the embedding carries an
explicit `fuel` bound, sufficient fuel reproducing the loop.  Returns
the accumulated configs together with the emitted log events. -/
def loadConfigsAux (env : Env) : Nat → Nat → List Config × List LogEvent
  | 0, _ => ([], [])
  | fuel + 1, i =>
    if env (scheduleKey i) = "" then ([], [])
    else
      let (cs, ls) := loadConfigsAux env fuel (i + 1)
      match validateIndex env i with
      | (some e, c) =>
          (cs, { level := .error
                 msg := "Skipping invalid job configuration"
                 fields := [("job_name", c.name), ("reason", e)] } :: ls)
      | (none, c) =>
          (c :: cs,
           { level := .info
             msg := "Successfully loaded job configuration"
             fields := [("job_name", c.name), ("schedule", c.schedule),
                        ("type", c.jobType)] } :: ls)

/-- `loadConfigs` (part_001 lines 36–97): loads configurations for all
jobs from the environment, scanning indices 1, 2, 3, … until the first
missing schedule key. -/
def loadConfigs (env : Env) (fuel : Nat) : List Config × List LogEvent :=
  loadConfigsAux env fuel 1

/-- The observable result of one job run, as the spec's executor
contract states it: `Success` with a detail or `Failure` with a
reason. -/
inductive Outcome where
  | success (detail : String)
  | failure (reason : String)
deriving Repr, DecidableEq

/-- An outgoing HTTP request: method, URL and headers. -/
structure Request where
  method : String
  url : String
  headers : List (String × String)
deriving Repr, DecidableEq

/-- Request construction in the http job closure (part_001 lines
143–148): a `GET` to the configured target carrying the header
`Authorization: Bearer <secret_token>`. -/
def httpRequestFor (conf : Config) : Request :=
  { method := "GET"
    url := conf.targetURL
    headers := [("Authorization", "Bearer " ++ conf.secretToken)] }

/-- What the HTTP round trip can come back with, as the job closure
observes it: a request-construction error from `http.NewRequest`, a
transport-level error from `httpClient.Do` (DNS, connection, TLS,
timeout — any error before a response), or a response with its numeric
status code and status text. -/
inductive HttpResult where
  | buildErr (msg : String)
  | transportErr (msg : String)
  | response (code : Nat) (status : String)
deriving Repr, DecidableEq

/-- The http job closure (part_001 lines 140–162): log the dispatch,
and handle the round-trip result; a status code of at least 400 is a
failure with the status text, anything below is success with the
status text. -/
def httpJob (conf : Config) (r : HttpResult) : Outcome × List LogEvent :=
  let startLog : LogEvent :=
    { level := .info
      msg := "Executing job"
      fields := [("job_name", conf.name), ("type", "http"),
                 ("target", conf.targetURL)] }
  match r with
  | .buildErr m =>
      (.failure ("Failed to create request: " ++ m),
       [startLog,
        { level := .error, msg := "Failed to create request"
          fields := [("error", m)] }])
  | .transportErr m =>
      (.failure ("Failed to execute request: " ++ m),
       [startLog,
        { level := .error, msg := "Failed to execute request"
          fields := [("error", m)] }])
  | .response code status =>
      if 400 ≤ code then
        (.failure ("Request failed: " ++ status),
         [startLog,
          { level := .error, msg := "Request failed"
            fields := [("status", status)] }])
      else
        (.success status,
         [startLog,
          { level := .info, msg := "Job completed successfully"
            fields := [("status", status)] }])

/-- The multi-job runner's shared HTTP client timeout in seconds
(part_001 line 124: `&http.Client{Timeout: 60 * time.Second}`). -/
def httpClientTimeoutSeconds : Nat := 60

/-- Modelled from the spec and Go's `net/http` contract: a client with
`Timeout` set bounds the total request duration; a request whose
handling would take longer is aborted and `Do` returns a timeout
error, which the closure handles in its transport-error branch.  `d`
is the duration in seconds the round trip would otherwise take and `r`
its result when allowed to finish. -/
def clientDo (d : Nat) (r : HttpResult) : HttpResult :=
  if httpClientTimeoutSeconds < d then
    .transportErr "Client.Timeout exceeded while awaiting headers"
  else r

/-- The legacy single-job runner's per-request bound in seconds
(src/main.go line 78: `context.WithTimeout(..., 30*time.Second)`). -/
def legacyRequestTimeoutSeconds : Nat := 30

/-- Modelled from the spec and Go's `context` contract, for the legacy
runner (src/main.go lines 77–96): the request context is cancelled
after 30 seconds and `Do` returns a deadline-exceeded error. -/
def legacyClientDo (d : Nat) (r : HttpResult) : HttpResult :=
  if legacyRequestTimeoutSeconds < d then
    .transportErr "context deadline exceeded"
  else r

/-- What one subprocess run comes back with.  Modelled from Go's
`os/exec` contract: `cmd.Run` returns a non-nil error exactly when the
subprocess fails to start (for example the container runtime being
unreachable on the `docker exec` path) or exits with a non-zero
status; `runErr` carries that error's message, `none` meaning a clean
zero exit.  `stdout` and `stderr` are the two streams, fully buffered
to completion. -/
structure ShellRunResult where
  runErr : Option String
  stdout : String
  stderr : String
deriving Repr, DecidableEq

/-- Argument vector of the subprocess the shell job closure spawns
(part_001 lines 170–182): `sh -c <command>` locally when no target
container is configured, `docker exec <container> sh -c <command>`
otherwise. -/
def shellArgv (conf : Config) : List String :=
  if conf.shellTargetContainer = "" then
    ["sh", "-c", conf.shellCommand]
  else
    ["docker", "exec", conf.shellTargetContainer, "sh", "-c",
     conf.shellCommand]

/-- The shell job closure (part_001 lines 165–200): log the dispatch,
log non-empty stdout at info level and non-empty stderr at error
level (both trimmed), then fail exactly when `cmd.Run` reported an
error and succeed otherwise. -/
def shellJob (conf : Config) (res : ShellRunResult) : Outcome × List LogEvent :=
  let startLog : LogEvent :=
    if conf.shellTargetContainer = "" then
      { level := .info, msg := "Executing local shell command"
        fields := [("job_name", conf.name), ("type", "shell")] }
    else
      { level := .info, msg := "Executing remote shell command via docker exec"
        fields := [("job_name", conf.name), ("type", "shell"),
                   ("command", conf.shellCommand),
                   ("target_container", conf.shellTargetContainer)] }
  let outLogs : List LogEvent :=
    if res.stdout = "" then []
    else [{ level := .info, msg := "Command stdout"
            fields := [("output", res.stdout.trim)] }]
  let errLogs : List LogEvent :=
    if res.stderr = "" then []
    else [{ level := .error, msg := "Command stderr"
            fields := [("output", res.stderr.trim)] }]
  match res.runErr with
  | some e =>
      (.failure ("Shell command failed to execute: " ++ e),
       startLog :: outLogs ++ errLogs ++
        [{ level := .error, msg := "Shell command failed to execute"
           fields := [("error", e)] }])
  | none =>
      (.success "",
       startLog :: outLogs ++ errLogs ++
        [{ level := .info, msg := "Job completed successfully"
           fields := [] }])

/-- One firing of a registered job's callback, as the dispatch
boundary sees it: either the callback ran to completion emitting its
logs, or it raised an unexpected runtime fault (a panic) carrying a
fault detail. -/
inductive JobRun where
  | ok (logs : List LogEvent)
  | panicked (fault : String)
deriving Repr, DecidableEq

/-- Modelled from the spec: the runner builds its scheduler with
`cron.New(cron.WithChain(cron.Recover(cronLogger)))` (part_001 lines
126–129; src/main.go line 109).  The `Recover` wrapper of the robfig
cron library — an external dependency, not under src/ — runs each
callback under a deferred recover: a panic is caught at the dispatch
boundary, logged through the `SlogCronLogger` adapter at error level
with the fault detail, and the callback returns normally to the
scheduler. -/
def dispatchRecover : JobRun → List LogEvent
  | .ok logs => logs
  | .panicked fault =>
      [{ level := .error, msg := "panic", fields := [("error", fault)] }]

/-- A batch of firings dispatched by the scheduler, each through the
recover boundary; the scheduler survives every one of them. -/
def fireAll (runs : List JobRun) : List (List LogEvent) :=
  runs.map dispatchRecover

/-- The registration loop of the multi-job main (part_001 lines
132–208): each loaded config's schedule is handed to `c.AddFunc`; on a
parse error the runner logs "Failed to add CRON job" and continues
with the next config, on success the entry is added.  `parseErr`
models the cron library's five-field expression parser (an external
dependency, modelled from the spec): `none` on a well-formed
expression, `some e` with a descriptive error on a malformed one. -/
def registerAll (parseErr : String → Option String) :
    List Config → List Config × List LogEvent
  | [] => ([], [])
  | c :: rest =>
    let (reg, logs) := registerAll parseErr rest
    match parseErr c.schedule with
    | some e =>
        (reg, { level := .error, msg := "Failed to add CRON job"
                fields := [("job_name", c.name), ("error", e)] } :: logs)
    | none => (c :: reg, logs)

/-- How far the multi-job main gets before blocking on the signal
channel: an exit during startup with a code, or a started scheduler
with its registry of successfully added jobs. -/
inductive StartResult where
  | earlyExit (code : Nat) (logs : List LogEvent)
  | started (registry : List Config) (logs : List LogEvent)
deriving Repr, DecidableEq

/-- Startup of the multi-job main (part_001 lines 111–212): load all
configs; with zero valid jobs, warn and exit with status 0 without
starting the scheduler; otherwise register every config (logging and
skipping the malformed ones) and start the scheduler. -/
def multiJobStart (parseErr : String → Option String) (env : Env)
    (fuel : Nat) : StartResult :=
  let (configs, loadLogs) := loadConfigs env fuel
  if configs.isEmpty then
    .earlyExit 0 (loadLogs ++
      [{ level := .warn, msg := "No valid jobs configured. Exiting."
         fields := [] }])
  else
    let (reg, regLogs) := registerAll parseErr configs
    .started reg (loadLogs ++ regLogs ++
      [{ level := .info, msg := "CRON scheduler started with configured jobs."
         fields := [("job_count", toString reg.length)] }])

/-- The legacy single-job runner's configuration (src/main.go lines
17–21). -/
structure LegacyConfig where
  schedule : String
  targetURL : String
  secretToken : String
deriving Repr, DecidableEq

/-- `loadConfig` of the legacy runner (src/main.go lines 24–45): the
schedule defaults to `0 */6 * * *`; a missing target URL or secret is
a fatal error. -/
def loadConfig (env : Env) : Except String LegacyConfig :=
  let schedule :=
    if env "CRON_SCHEDULE" = "" then "0 */6 * * *" else env "CRON_SCHEDULE"
  if env "CRON_TARGET_URL" = "" then
    .error "CRON_TARGET_URL environment variable is not set"
  else if env "CRON_SECRET" = "" then
    .error "CRON_SECRET environment variable is not set"
  else
    .ok { schedule := schedule
          targetURL := env "CRON_TARGET_URL"
          secretToken := env "CRON_SECRET" }

/-- Startup of the legacy single-job main (src/main.go lines 64–118),
up to the point where it blocks on the signal channel: `some code`
when the process exits during startup, `none` when the scheduler
started.  A configuration-load failure exits with status 1 (lines
69–72), and an `AddFunc` failure on the single schedule also exits
with status 1 (lines 111–115). -/
def legacyStart (parseErr : String → Option String) (env : Env) : Option Nat :=
  match loadConfig env with
  | .error _ => some 1
  | .ok c =>
    match parseErr c.schedule with
    | some _ => some 1
    | none => none

/-- The lifecycle phases of the running process (spec §4.3 after
startup): running, shutting down after the signal, stopped. -/
inductive Phase where
  | running
  | shuttingDown
  | stopped
deriving Repr, DecidableEq

/-- Lifecycle events the runner can observe: the two termination
signals registered on the quit channel (part_001 line 216), a trigger
firing that starts one job execution, an in-flight execution
finishing, and anything else (which the runner ignores — there is no
administrative stop). -/
inductive Event where
  | sigint
  | sigterm
  | trigger
  | finish
  | noise
deriving Repr, DecidableEq

/-- Process state after startup: lifecycle phase, number of in-flight
job executions, and the exit status once the process has exited. -/
structure ProcState where
  phase : Phase
  inflight : Nat
  exitCode : Option Nat
deriving Repr, DecidableEq

/-- One lifecycle step of the multi-job main (part_001 lines 210–224),
together with the cron library's `Stop` contract, modelled from the
spec: `c.Stop()` stops evaluating triggers for new fires and its
returned context becomes done once the count of running jobs reaches
zero; no in-flight job is cancelled.  While running, a trigger starts
one more execution and a finish retires one; only the two registered
signals leave the running phase.  After the signal the runner blocks
on the stop context: new triggers are ignored, in-flight executions
finish one by one, and once none remain `main` returns and the
process exits with status 0. -/
def lifecycleStep (s : ProcState) (e : Event) : ProcState :=
  match s.phase, e with
  | .running, .sigint =>
      if s.inflight = 0 then ⟨.stopped, 0, some 0⟩
      else ⟨.shuttingDown, s.inflight, none⟩
  | .running, .sigterm =>
      if s.inflight = 0 then ⟨.stopped, 0, some 0⟩
      else ⟨.shuttingDown, s.inflight, none⟩
  | .running, .trigger => ⟨.running, s.inflight + 1, s.exitCode⟩
  | .running, .finish => ⟨.running, s.inflight - 1, s.exitCode⟩
  | .running, .noise => s
  | .shuttingDown, .finish =>
      if s.inflight ≤ 1 then ⟨.stopped, 0, some 0⟩
      else ⟨.shuttingDown, s.inflight - 1, none⟩
  | .shuttingDown, _ => s
  | .stopped, _ => s

/-- Modelled from the spec: §3 requires an `HttpAction`'s `target_url`
to be a non-empty *valid URL*.  The loader source performs no
URL-syntax check, so validity has no source counterpart; following the
spec's words it is modelled as a necessary condition every URL this
runner's GET client could use must meet: carrying one of the two
supported schemes. -/
def specValidURL (s : String) : Bool :=
  "http://".data.isPrefixOf s.data || "https://".data.isPrefixOf s.data

/-- A three-job environment: index 1 a valid http job, index 2 an
invalid shell job (no command), index 3 a valid shell job; index 4 has
no schedule, ending the scan. -/
def envW : Env := fun k =>
  if k = "CRON_SCHEDULE_1" then "*/5 * * * *"
  else if k = "CRON_TARGET_URL_1" then "http://one.example/hook"
  else if k = "CRON_SECRET_1" then "s1"
  else if k = "CRON_SCHEDULE_2" then "0 2 * * *"
  else if k = "JOB_TYPE_2" then "shell"
  else if k = "CRON_SCHEDULE_3" then "0 * * * *"
  else if k = "JOB_TYPE_3" then "shell"
  else if k = "SHELL_COMMAND_3" then "echo hello"
  else ""

/-- A parser model that rejects the schedule of envW's third job. -/
def parseW : String → Option String := fun s =>
  if s = "0 * * * *" then some "expected exactly 5 fields, found 4" else none

/-- An environment with a schedule at index 1 but no job type: the
loader must default the job to http. -/
def envDefaultType : Env := fun k =>
  if k = "CRON_SCHEDULE_1" then "* * * * *"
  else if k = "CRON_TARGET_URL_1" then "https://two.example/ping"
  else if k = "CRON_SECRET_1" then "tok"
  else ""

/-- An environment whose first job carries a target that is not a URL
at all; the loader accepts it anyway. -/
def envBadURL : Env := fun k =>
  if k = "CRON_SCHEDULE_1" then "* * * * *"
  else if k = "CRON_TARGET_URL_1" then "not a url"
  else if k = "CRON_SECRET_1" then "tok"
  else ""

/-- An environment with no job keys at all. -/
def envEmptyJobs : Env := fun _ => ""

/-- A legacy-runner environment with a malformed schedule and both
required fields present. -/
def envLegacyBad : Env := fun k =>
  if k = "CRON_SCHEDULE" then "not-a-cron"
  else if k = "CRON_TARGET_URL" then "https://example.com/ping"
  else if k = "CRON_SECRET" then "tok"
  else ""

/-- A parser model that rejects the malformed schedule of
`envLegacyBad`. -/
def badParse : String → Option String := fun s =>
  if s = "not-a-cron" then some "expected exactly 5 fields, found 1" else none

/-- A legacy-runner environment missing the required target URL. -/
def envLegacyNoURL : Env := fun k =>
  if k = "CRON_SCHEDULE" then "0 */6 * * *" else ""

/-- A concrete http job config. -/
def confH : Config :=
  { name := "ping", schedule := "*/5 * * * *", jobType := "http"
    targetURL := "https://api.example/health", secretToken := "tok"
    shellCommand := "", shellTargetContainer := "" }

/-- A concrete local shell job config. -/
def confShellLocal : Config :=
  { name := "local", schedule := "* * * * *", jobType := "shell"
    targetURL := "", secretToken := ""
    shellCommand := "echo hello", shellTargetContainer := "" }

/-- A concrete remote shell job config targeting container db1. -/
def confShellRemote : Config :=
  { name := "backup", schedule := "0 2 * * *", jobType := "shell"
    targetURL := "", secretToken := ""
    shellCommand := "pg_dump mydb", shellTargetContainer := "db1" }

/-- The config `envW` yields at index 1. -/
def confW1 : Config :=
  { name := "job_#1", schedule := "*/5 * * * *", jobType := "http"
    targetURL := "http://one.example/hook", secretToken := "s1"
    shellCommand := "", shellTargetContainer := "" }

/-- The config `envW` yields at index 3. -/
def confW3 : Config :=
  { name := "job_#3", schedule := "0 * * * *", jobType := "shell"
    targetURL := "", secretToken := ""
    shellCommand := "echo hello", shellTargetContainer := "" }

/-- The load-phase log events `envW` produces. -/
def logsW : List LogEvent :=
  [{ level := .info, msg := "Successfully loaded job configuration"
     fields := [("job_name", "job_#1"), ("schedule", "*/5 * * * *"),
                ("type", "http")] },
   { level := .error, msg := "Skipping invalid job configuration"
     fields := [("job_name", "job_#2"),
                ("reason", "SHELL_COMMAND is required")] },
   { level := .info, msg := "Successfully loaded job configuration"
     fields := [("job_name", "job_#3"), ("schedule", "0 * * * *"),
                ("type", "shell")] }]

/-!  Helper lemmas shared by the claim theorems. -/

/-- Closed form of the loader's index loop: when `k` is the first
index at or after `i` whose schedule key is missing and the fuel
suffices, the loop processes exactly the indices `i, …, k-1`, keeping
the valid ones in order and emitting one log event per index. -/
theorem loadConfigsAux_stops (env : Env) :
    ∀ (fuel i k : Nat), i ≤ k → k < i + fuel →
      env (scheduleKey k) = "" →
      (∀ j, i ≤ j → j < k → env (scheduleKey j) ≠ "") →
      loadConfigsAux env fuel i =
        ((List.range' i (k - i)).filterMap (acceptIndex env),
         (List.range' i (k - i)).map (indexLog env)) := by
  intro fuel
  induction fuel with
  | zero =>
    intro i k h1 h2 _ _
    omega
  | succ fuel ih =>
    intro i k h1 h2 hk hj
    rcases Nat.lt_or_ge i k with hik | hik
    · have hne : env (scheduleKey i) ≠ "" := hj i le_rfl hik
      have hrec := ih (i + 1) k hik (by omega) hk
        (fun j hj1 hj2 => hj j (by omega) hj2)
      have hsz : k - i = (k - (i + 1)) + 1 := by omega
      simp only [loadConfigsAux]
      rw [if_neg hne, hrec, hsz, List.range'_succ]
      rcases hvi : validateIndex env i with ⟨eo, c⟩
      cases eo with
      | none =>
        simp [acceptIndex, indexLog, hvi]
      | some e =>
        simp [acceptIndex, indexLog, hvi]
    · have : i = k := le_antisymm h1 hik
      subst this
      simp [loadConfigsAux, hk]

/-- Closed form of the registration loop: the registry keeps exactly
the configs whose schedule parses, in their original order, and one
error event is logged per rejected config. -/
theorem registerAll_eq (parseErr : String → Option String) :
    ∀ configs : List Config,
      registerAll parseErr configs =
        (configs.filter (fun c => (parseErr c.schedule).isNone),
         (configs.filter (fun c => (parseErr c.schedule).isSome)).map
           (fun c =>
             { level := .error, msg := "Failed to add CRON job"
               fields := [("job_name", c.name),
                          ("error", (parseErr c.schedule).getD "")] }))
  | [] => rfl
  | c :: rest => by
    have hrec := registerAll_eq parseErr rest
    simp only [registerAll, hrec]
    rcases hp : parseErr c.schedule with _ | e
    · simp [List.filter_cons, hp]
    · simp [List.filter_cons, hp]

/-- A trace containing no termination signal leaves the running phase
in place: the scheduler keeps running through triggers, finishes and
ignored events. -/
theorem noSignal_keeps_running :
    ∀ (es : List Event) (s : ProcState),
      s.phase = .running →
      (∀ x ∈ es, x ≠ Event.sigint ∧ x ≠ Event.sigterm) →
      (es.foldl lifecycleStep s).phase = .running
  | [], s, hs, _ => hs
  | e :: es, s, hs, h => by
    have he := h e (List.mem_cons_self e es)
    have hstep : (lifecycleStep s e).phase = .running := by
      obtain ⟨ph, fl, ec⟩ := s
      simp only [ProcState.mk.injEq] at hs ⊢
      cases e <;> simp_all [lifecycleStep]
    exact noSignal_keeps_running es (lifecycleStep s e) hstep
      (fun x hx => h x (List.mem_cons_of_mem e hx))

/-- Drain: with `m + 1` executions in flight during shutdown,
`m + 1` finish events bring the process to a clean stop with exit
status 0. -/
theorem drainFinish :
    ∀ m : Nat,
      (List.replicate (m + 1) Event.finish).foldl lifecycleStep
          ⟨.shuttingDown, m + 1, none⟩ =
        ⟨.stopped, 0, some 0⟩
  | 0 => rfl
  | m + 1 => by
    have hrec := drainFinish m
    rw [List.replicate_succ, List.foldl_cons]
    have hstep : lifecycleStep ⟨.shuttingDown, m + 2, none⟩ Event.finish =
        ⟨.shuttingDown, m + 1, none⟩ := by
      simp [lifecycleStep]
    rw [hstep]
    exact hrec

/-!  Claim theorems. -/

/-- C4: the Configuration Loader reads indexed keys for i = 1, 2, 3, …
contiguously starting at 1 and stops at the first index whose schedule
key is missing; an index with missing required fields only skips that
single job (logging the reason) and loading continues for all later
indices, so the output sequence keeps the valid indices in order.
Here `k` is the first index with no schedule: the loader's output is
exactly the accepted configs of indices 1, …, k-1 in index order, with
one log event (skip or success) per scanned index. -/
theorem loader_contiguous_skips_preserve_order (env : Env) (fuel k : Nat)
    (hk1 : 1 ≤ k) (hkf : k < 1 + fuel)
    (hmiss : env (scheduleKey k) = "")
    (hpres : ∀ j, j < k → 1 ≤ j → env (scheduleKey j) ≠ "") :
    loadConfigs env fuel =
      ((List.range' 1 (k - 1)).filterMap (acceptIndex env),
       (List.range' 1 (k - 1)).map (indexLog env)) :=
  loadConfigsAux_stops env fuel 1 k hk1 hkf hmiss
    (fun j h1 h2 => hpres j h2 h1)

/-- Witness for C4 on `envW`: the scan stops at index 4, and the
output is the accepted configs of indices 1, 2, 3 in order (index 2,
an invalid shell job, is skipped). -/
theorem loader_contiguous_skips_preserve_order_witness :
    loadConfigs envW 10 =
      ((List.range' 1 3).filterMap (acceptIndex envW),
       (List.range' 1 3).map (indexLog envW)) :=
  loader_contiguous_skips_preserve_order envW 10 4 (by decide) (by decide)
    (by decide) (by decide)

/-- C10: an unset or empty `JOB_TYPE_i` for an index that has a
schedule makes the loader treat the job as http-type, so the index is
accepted exactly when the http required fields (target URL and secret)
are present, and the accepted config carries job type http with those
fields. -/
theorem empty_jobType_defaults_to_http (env : Env) (i : Nat)
    (hsched : env (scheduleKey i) ≠ "")
    (htype : env (jobTypeKey i) = "") :
    jobTypeOf env i = "http" ∧
    ((acceptIndex env i).isSome ↔
      (env (targetURLKey i) ≠ "" ∧ env (secretKey i) ≠ "")) ∧
    acceptIndex env i =
      (if env (targetURLKey i) = "" ∨ env (secretKey i) = "" then none
       else some
        { name := jobNameOf env i
          schedule := env (scheduleKey i)
          jobType := "http"
          targetURL := env (targetURLKey i)
          secretToken := env (secretKey i)
          shellCommand := ""
          shellTargetContainer := "" }) := by
  have hjt : jobTypeOf env i = "http" := by
    simp [jobTypeOf, htype]
  refine ⟨hjt, ?_, ?_⟩ <;>
  · by_cases hu : env (targetURLKey i) = "" <;>
      by_cases hs : env (secretKey i) = "" <;>
        simp [acceptIndex, validateIndex, hjt, hu, hs]

/-- Witness for C10 on `envDefaultType`: index 1 has a schedule but no
`JOB_TYPE_1`; it is loaded as a valid http job. -/
theorem empty_jobType_defaults_to_http_witness :
    jobTypeOf envDefaultType 1 = "http" ∧
    ((acceptIndex envDefaultType 1).isSome ↔
      (envDefaultType (targetURLKey 1) ≠ "" ∧
       envDefaultType (secretKey 1) ≠ "")) ∧
    acceptIndex envDefaultType 1 =
      (if envDefaultType (targetURLKey 1) = "" ∨
          envDefaultType (secretKey 1) = "" then none
       else some
        { name := jobNameOf envDefaultType 1
          schedule := envDefaultType (scheduleKey 1)
          jobType := "http"
          targetURL := envDefaultType (targetURLKey 1)
          secretToken := envDefaultType (secretKey 1)
          shellCommand := ""
          shellTargetContainer := "" }) :=
  empty_jobType_defaults_to_http envDefaultType 1 (by decide) (by decide)

/-- C5, amended: every descriptor the loader accepts has its declared
type's required fields populated — an http descriptor has a non-empty
target URL and a non-empty secret, a shell descriptor a non-empty
command, and the type is one of the two known tags — so a descriptor
with a missing required field for its declared type is discarded
before it reaches the Scheduler Core.  (The loader performs no
URL-syntax validation: non-emptiness is all it checks of the target
URL; see the counterexample.) -/
theorem accepted_descriptor_fields_populated (env : Env) (i : Nat)
    (c : Config) (hacc : acceptIndex env i = some c) :
    (c.jobType = "http" ∨ c.jobType = "shell") ∧
    (c.jobType = "http" → c.targetURL ≠ "" ∧ c.secretToken ≠ "") ∧
    (c.jobType = "shell" → c.shellCommand ≠ "") := by
  unfold acceptIndex validateIndex at hacc
  by_cases hjt : jobTypeOf env i = "http"
  · by_cases hu : env (targetURLKey i) = "" <;>
      by_cases hs : env (secretKey i) = "" <;>
        simp [hjt, hu, hs] at hacc <;>
          simp [← hacc, hjt, hu, hs]
  · by_cases hsh : jobTypeOf env i = "shell"
    · by_cases hc : env (shellCommandKey i) = "" <;>
        simp [hjt, hsh, hc] at hacc <;>
          simp [← hacc, hsh, hc]
    · simp [hjt, hsh] at hacc

/-- Witness for C5's amended theorem on `envW`: index 3 is accepted as
a shell job with its required fields populated. -/
theorem accepted_descriptor_fields_populated_witness :
    ("shell" = "http" ∨ "shell" = "shell") ∧
    ("shell" = "http" → "" ≠ "" ∧ "" ≠ "") ∧
    ("shell" = "shell" → "echo hello" ≠ "") := by
  have h := accepted_descriptor_fields_populated envW 3
    { name := "job_#3", schedule := "0 * * * *", jobType := "shell"
      targetURL := "", secretToken := "", shellCommand := "echo hello"
      shellTargetContainer := "" } (by decide)
  simpa using h

/-- C6, amended: in the multi-job runner, a config whose schedule the
cron parser rejects is not added to the scheduler — the registry is
exactly the parse-valid configs in their original order — one error
event is logged per rejected config, and startup still proceeds to
scheduler start whenever at least one config was loaded; the legacy
single-job runner (src/main.go) instead exits with status 1 when its
one schedule is malformed (see the counterexample). -/
theorem malformed_schedule_logged_and_skipped
    (parseErr : String → Option String) (env : Env) (fuel : Nat)
    (cs : List Config) (ls : List LogEvent)
    (hload : loadConfigs env fuel = (cs, ls)) :
    (registerAll parseErr cs).1 =
      cs.filter (fun c => (parseErr c.schedule).isNone) ∧
    (registerAll parseErr cs).2 =
      (cs.filter (fun c => (parseErr c.schedule).isSome)).map
        (fun c =>
          { level := .error, msg := "Failed to add CRON job"
            fields := [("job_name", c.name),
                       ("error", (parseErr c.schedule).getD "")] }) ∧
    (cs ≠ [] →
      multiJobStart parseErr env fuel =
        .started (cs.filter (fun c => (parseErr c.schedule).isNone))
          (ls ++
           (cs.filter (fun c => (parseErr c.schedule).isSome)).map
             (fun c =>
               { level := .error, msg := "Failed to add CRON job"
                 fields := [("job_name", c.name),
                            ("error", (parseErr c.schedule).getD "")] }) ++
           [{ level := .info
              msg := "CRON scheduler started with configured jobs."
              fields := [("job_count", toString
                (cs.filter
                  (fun c => (parseErr c.schedule).isNone)).length)] }])) := by
  refine ⟨by rw [registerAll_eq], by rw [registerAll_eq], fun hne => ?_⟩
  have hemp : cs.isEmpty = false := by
    cases cs with
    | nil => exact absurd rfl hne
    | cons a t => rfl
  simp only [multiJobStart, hload, hemp, Bool.false_eq_true, if_false,
    registerAll_eq]

/-- Witness for C6's amended theorem on `envW` with the parser model
`parseW`, which rejects the third job's schedule: the registry keeps
only the first job, the rejection is logged, and the scheduler
starts. -/
theorem malformed_schedule_logged_and_skipped_witness :
    loadConfigs envW 10 = ([confW1, confW3], logsW) ∧
    ((registerAll parseW [confW1, confW3]).1 =
      ([confW1, confW3].filter (fun c => (parseW c.schedule).isNone)) ∧
     (registerAll parseW [confW1, confW3]).2 =
      ([confW1, confW3].filter (fun c => (parseW c.schedule).isSome)).map
        (fun c =>
          { level := .error, msg := "Failed to add CRON job"
            fields := [("job_name", c.name),
                       ("error", (parseW c.schedule).getD "")] }) ∧
     ([confW1, confW3] ≠ ([] : List Config) →
      multiJobStart parseW envW 10 =
        .started
          ([confW1, confW3].filter (fun c => (parseW c.schedule).isNone))
          (logsW ++
           ([confW1, confW3].filter
             (fun c => (parseW c.schedule).isSome)).map
             (fun c =>
               { level := .error, msg := "Failed to add CRON job"
                 fields := [("job_name", c.name),
                            ("error", (parseW c.schedule).getD "")] }) ++
           [{ level := .info
              msg := "CRON scheduler started with configured jobs."
              fields := [("job_count", toString
                ([confW1, confW3].filter
                  (fun c => (parseW c.schedule).isNone)).length)] }]))) :=
  ⟨by decide,
   malformed_schedule_logged_and_skipped parseW envW 10 [confW1, confW3]
     logsW (by decide)⟩

/-- C6, counterexample to the claim as stated: in the legacy
single-job runner (src/main.go lines 111–115) a malformed schedule
does abort startup — with both required fields set and a schedule the
parser model rejects as malformed, the process exits with status 1
instead of logging and continuing. -/
theorem legacy_malformed_schedule_aborts :
    badParse "not-a-cron" = some "expected exactly 5 fields, found 1" ∧
    legacyStart badParse envLegacyBad = some 1 := by decide

/-- C3: the process exit codes — the multi-job runner exits 0 after
logging a warning when zero valid jobs are configured, without ever
starting the scheduler; a clean shutdown via signal drains the
in-flight executions and exits 0; and the legacy runner exits 1 on a
fatal configuration-load failure. -/
theorem exit_codes (parseErr : String → Option String) (env env2 : Env)
    (fuel n : Nat) (e : String) :
    ((loadConfigs env fuel).1 = [] →
      multiJobStart parseErr env fuel =
        .earlyExit 0 ((loadConfigs env fuel).2 ++
          [{ level := .warn, msg := "No valid jobs configured. Exiting."
             fields := [] }])) ∧
    ((Event.sigint :: List.replicate n Event.finish).foldl lifecycleStep
        ⟨.running, n, none⟩ = ⟨.stopped, 0, some 0⟩) ∧
    (loadConfig env2 = .error e → legacyStart parseErr env2 = some 1) := by
  refine ⟨fun h => ?_, ?_, fun h => ?_⟩
  · rcases hl : loadConfigs env fuel with ⟨cs, ls⟩
    rw [hl] at h
    simp only at h
    subst h
    simp [multiJobStart, hl]
  · cases n with
    | zero => rfl
    | succ m =>
      rw [List.foldl_cons]
      have hstep : lifecycleStep ⟨.running, m + 1, none⟩ Event.sigint =
          ⟨.shuttingDown, m + 1, none⟩ := by
        simp [lifecycleStep]
      rw [hstep]
      exact drainFinish m
  · simp [legacyStart, h]

/-- Witness for C3: the empty environment exits early with status 0
after a warning; a signal with two executions in flight ends in a
clean stop with status 0; and the legacy runner without a target URL
exits with status 1. -/
theorem exit_codes_witness :
    ((loadConfigs envEmptyJobs 5).1 = [] ∧
     multiJobStart badParse envEmptyJobs 5 =
       .earlyExit 0 ((loadConfigs envEmptyJobs 5).2 ++
         [{ level := .warn, msg := "No valid jobs configured. Exiting."
            fields := [] }])) ∧
    ((Event.sigint :: List.replicate 2 Event.finish).foldl lifecycleStep
        ⟨.running, 2, none⟩ = ⟨.stopped, 0, some 0⟩) ∧
    (loadConfig envLegacyNoURL =
      .error "CRON_TARGET_URL environment variable is not set" ∧
     legacyStart badParse envLegacyNoURL = some 1) :=
  ⟨⟨by decide,
    (exit_codes badParse envEmptyJobs envLegacyNoURL 5 2
      "CRON_TARGET_URL environment variable is not set").1 (by decide)⟩,
   (exit_codes badParse envEmptyJobs envLegacyNoURL 5 2
      "CRON_TARGET_URL environment variable is not set").2.1,
   ⟨rfl,
    (exit_codes badParse envEmptyJobs envLegacyNoURL 5 2
      "CRON_TARGET_URL environment variable is not set").2.2 rfl⟩⟩

/-- C5, counterexample to the claim as stated: the loader accepts an
http descriptor whose target is `not a url`, a string that is not a
valid URL (it carries no scheme at all), because the source checks
only non-emptiness of `CRON_TARGET_URL_i`. -/
theorem loader_accepts_invalid_url :
    acceptIndex envBadURL 1 =
      some
        { name := "job_#1", schedule := "* * * * *", jobType := "http"
          targetURL := "not a url", secretToken := "tok"
          shellCommand := "", shellTargetContainer := "" } ∧
    specValidURL "not a url" = false := by decide

/-- C2: receipt of an interrupt or terminate signal is the only event
that moves the running process into shutdown (any full trace that left
the running phase contains one); during shutdown no new fire starts
and nothing but a job finishing changes the in-flight count, which a
finish lowers by exactly one (no cancellation); and the process stops
only once every in-flight execution has finished, exiting with status
0. -/
theorem signal_only_shutdown_drains_and_exits_zero
    (es : List Event) (n : Nat) (s : ProcState) (e : Event) :
    (s.phase = .running → (lifecycleStep s e).phase ≠ .running →
      e = .sigint ∨ e = .sigterm) ∧
    ((es.foldl lifecycleStep ⟨.running, n, none⟩).phase ≠ .running →
      Event.sigint ∈ es ∨ Event.sigterm ∈ es) ∧
    (s.phase = .shuttingDown → lifecycleStep s .trigger = s) ∧
    (s.phase = .shuttingDown → e ≠ .finish → lifecycleStep s e = s) ∧
    (s.phase = .shuttingDown →
      (lifecycleStep s .finish).inflight = s.inflight - 1) ∧
    (s.phase ≠ .stopped → (lifecycleStep s e).phase = .stopped →
      (lifecycleStep s e).inflight = 0 ∧
      (lifecycleStep s e).exitCode = some 0) := by
  obtain ⟨ph, fl, ec⟩ := s
  refine ⟨fun h1 h2 => ?_, fun h => ?_, fun h1 => ?_, fun h1 h2 => ?_,
    fun h1 => ?_, fun h1 h2 => ?_⟩
  · simp only at h1
    subst h1
    cases e <;> simp_all [lifecycleStep]
  · by_contra hc
    push_neg at hc
    refine h (noSignal_keeps_running es ⟨.running, n, none⟩ rfl ?_)
    intro x hx
    constructor
    · intro hxi
      subst hxi
      exact hc.1 hx
    · intro hxt
      subst hxt
      exact hc.2 hx
  · simp only at h1
    subst h1
    rfl
  · simp only at h1
    subst h1
    cases e with
    | finish => exact absurd rfl h2
    | _ => rfl
  · simp only at h1
    subst h1
    simp only [lifecycleStep]
    split
    · simp
      omega
    · simp
  · simp only at h1 h2 ⊢
    cases ph with
    | stopped => exact absurd rfl h1
    | running =>
      cases e <;> simp_all [lifecycleStep] <;> split at h2 <;> simp_all
    | shuttingDown =>
      cases e <;> simp_all [lifecycleStep] <;> split at h2 <;> simp_all

/-- Witness for C2 at concrete states: a terminate signal is accepted
as a shutdown trigger; the trace trigger-then-sigterm has left the
running phase and indeed contains a signal; with two executions in
flight during shutdown a trigger and an ignored event change nothing
and a finish lowers the count to one; and the final finish stops the
process drained with exit status 0. -/
theorem signal_only_shutdown_drains_and_exits_zero_witness :
    (Event.sigterm = Event.sigint ∨ Event.sigterm = Event.sigterm) ∧
    (Event.sigint ∈ [Event.trigger, Event.sigterm] ∨
     Event.sigterm ∈ [Event.trigger, Event.sigterm]) ∧
    lifecycleStep ⟨.shuttingDown, 2, none⟩ .trigger =
      ⟨.shuttingDown, 2, none⟩ ∧
    lifecycleStep ⟨.shuttingDown, 2, none⟩ .noise =
      ⟨.shuttingDown, 2, none⟩ ∧
    (lifecycleStep ⟨.shuttingDown, 2, none⟩ .finish).inflight = 2 - 1 ∧
    ((lifecycleStep ⟨.shuttingDown, 1, none⟩ .finish).inflight = 0 ∧
     (lifecycleStep ⟨.shuttingDown, 1, none⟩ .finish).exitCode = some 0) :=
  ⟨(signal_only_shutdown_drains_and_exits_zero [] 0 ⟨.running, 1, none⟩
      .sigterm).1 rfl (by decide),
   (signal_only_shutdown_drains_and_exits_zero
      [Event.trigger, Event.sigterm] 0 ⟨.running, 0, none⟩ .noise).2.1
      (by decide),
   (signal_only_shutdown_drains_and_exits_zero [] 0 ⟨.shuttingDown, 2, none⟩
      .trigger).2.2.1 rfl,
   (signal_only_shutdown_drains_and_exits_zero [] 0 ⟨.shuttingDown, 2, none⟩
      .noise).2.2.2.1 rfl (by decide),
   (signal_only_shutdown_drains_and_exits_zero [] 0 ⟨.shuttingDown, 2, none⟩
      .finish).2.2.2.2.1 rfl,
   (signal_only_shutdown_drains_and_exits_zero [] 0 ⟨.shuttingDown, 1, none⟩
      .finish).2.2.2.2.2 (by decide) (by decide)⟩

/-- C1: a panic raised during one job's dispatch callback is caught at
the dispatch boundary and turned into a single error-level log event
carrying the fault detail; the firings dispatched before and after it
are exactly what they would have been on their own, and the batch
completes with one dispatch per firing — the fault aborts neither the
scheduler loop nor other jobs' firings. -/
theorem panic_caught_at_dispatch_boundary
    (pre post : List JobRun) (f : String) :
    fireAll (pre ++ JobRun.panicked f :: post) =
      fireAll pre ++
        [[{ level := .error, msg := "panic", fields := [("error", f)] }]] ++
        fireAll post ∧
    (fireAll (pre ++ JobRun.panicked f :: post)).length =
      pre.length + 1 + post.length := by
  constructor
  · simp [fireAll, dispatchRecover]
  · simp only [fireAll, List.length_map, List.length_append,
      List.length_cons]
    omega

/-- C7: the http executor issues a GET to the configured target with
the bearer-token Authorization header; a response with status at least
400 is a failure capturing the status text, a response with status in
200–399 is a success carrying the status, and a transport-level error
before any response is a failure carrying the underlying message. -/
theorem http_get_bearer_status_outcomes
    (conf : Config) (code : Nat) (status m : String) :
    httpRequestFor conf =
      { method := "GET", url := conf.targetURL
        headers := [("Authorization", "Bearer " ++ conf.secretToken)] } ∧
    (400 ≤ code →
      (httpJob conf (.response code status)).1 =
        .failure ("Request failed: " ++ status)) ∧
    (200 ≤ code → code ≤ 399 →
      (httpJob conf (.response code status)).1 = .success status) ∧
    (httpJob conf (.transportErr m)).1 =
      .failure ("Failed to execute request: " ++ m) := by
  refine ⟨rfl, fun h => ?_, fun h1 h2 => ?_, rfl⟩
  · simp [httpJob, h]
  · have : ¬ 400 ≤ code := by omega
    simp [httpJob, this]

/-- Witness for C7 on a concrete http job: the request shape, a 500
response failing with its status text, a 200 response succeeding, and
a refused connection failing with the transport message. -/
theorem http_get_bearer_status_outcomes_witness :
    httpRequestFor confH =
      { method := "GET", url := confH.targetURL
        headers := [("Authorization", "Bearer " ++ confH.secretToken)] } ∧
    (httpJob confH (.response 500 "500 Internal Server Error")).1 =
      .failure ("Request failed: " ++ "500 Internal Server Error") ∧
    (httpJob confH (.response 200 "200 OK")).1 = .success "200 OK" ∧
    (httpJob confH (.transportErr "connection refused")).1 =
      .failure ("Failed to execute request: " ++ "connection refused") :=
  ⟨(http_get_bearer_status_outcomes confH 500 "500 Internal Server Error"
      "connection refused").1,
   (http_get_bearer_status_outcomes confH 500 "500 Internal Server Error"
      "connection refused").2.1 (by decide),
   (http_get_bearer_status_outcomes confH 200 "200 OK"
      "connection refused").2.2.1 (by decide) (by decide),
   (http_get_bearer_status_outcomes confH 200 "200 OK"
      "connection refused").2.2.2⟩

/-- C8: the shell executor runs `sh -c <command>` locally when no
target container is configured and `docker exec <container> sh -c
<command>` otherwise; the outcome is a failure carrying the underlying
message exactly when the subprocess run reported an error (non-zero
exit or failure to start, the unreachable-runtime case included) and a
success otherwise; and non-empty stderr is logged at error level
without itself causing failure. -/
theorem shell_argv_and_outcomes
    (conf : Config) (res : ShellRunResult) (e : String) :
    (conf.shellTargetContainer = "" →
      shellArgv conf = ["sh", "-c", conf.shellCommand]) ∧
    (conf.shellTargetContainer ≠ "" →
      shellArgv conf =
        ["docker", "exec", conf.shellTargetContainer, "sh", "-c",
         conf.shellCommand]) ∧
    (res.runErr = some e →
      (shellJob conf res).1 =
        .failure ("Shell command failed to execute: " ++ e)) ∧
    (res.runErr = none → (shellJob conf res).1 = .success "") ∧
    (res.stderr ≠ "" →
      { level := LogLevel.error, msg := "Command stderr"
        fields := [("output", res.stderr.trim)] } ∈ (shellJob conf res).2) := by
  obtain ⟨re, so, se⟩ := res
  refine ⟨fun h => ?_, fun h => ?_, fun h => ?_, fun h => ?_, fun h => ?_⟩
  · simp [shellArgv, h]
  · simp [shellArgv, h]
  · simp only at h
    subst h
    simp [shellJob]
  · simp only at h
    subst h
    simp [shellJob]
  · simp only at h
    cases re <;> simp [shellJob, h]

/-- Witness for C8 on concrete shell jobs: the local and remote
argument vectors; a failing remote run (container runtime
unreachable) yielding the failure with its message while its stderr
is logged at error level; and a succeeding local run with non-empty
stderr still yielding success. -/
theorem shell_argv_and_outcomes_witness :
    shellArgv confShellLocal = ["sh", "-c", confShellLocal.shellCommand] ∧
    shellArgv confShellRemote =
      ["docker", "exec", confShellRemote.shellTargetContainer, "sh", "-c",
       confShellRemote.shellCommand] ∧
    (shellJob confShellRemote
        ⟨some "exit status 1", "", "Cannot connect to the Docker daemon"⟩).1 =
      .failure ("Shell command failed to execute: " ++ "exit status 1") ∧
    { level := LogLevel.error, msg := "Command stderr"
      fields := [("output",
        ("Cannot connect to the Docker daemon" : String).trim)] } ∈
      (shellJob confShellRemote
        ⟨some "exit status 1", "", "Cannot connect to the Docker daemon"⟩).2 ∧
    (shellJob confShellLocal ⟨none, "hello", "a warning"⟩).1 = .success "" :=
  ⟨(shell_argv_and_outcomes confShellLocal ⟨none, "", ""⟩ "").1 rfl,
   (shell_argv_and_outcomes confShellRemote ⟨none, "", ""⟩ "").2.1
     (by decide),
   (shell_argv_and_outcomes confShellRemote
      ⟨some "exit status 1", "", "Cannot connect to the Docker daemon"⟩
      "exit status 1").2.2.1 rfl,
   (shell_argv_and_outcomes confShellRemote
      ⟨some "exit status 1", "", "Cannot connect to the Docker daemon"⟩
      "exit status 1").2.2.2.2 (by decide),
   (shell_argv_and_outcomes confShellLocal ⟨none, "hello", "a warning"⟩
      "").2.2.2.1 rfl⟩

/-- C9: the multi-job runner's shared HTTP client applies a fixed
upper bound of 60 seconds to the total request duration, and a request
that would exceed it is cut off and surfaces as a failure with the
client's timeout message instead of blocking the firing; the legacy
runner's per-request context bound (30 seconds) likewise cuts off any
request before it could exceed 60 seconds. -/
theorem http_timeout_bound
    (conf : Config) (d : Nat) (r : HttpResult) :
    httpClientTimeoutSeconds = 60 ∧
    (60 < d →
      (httpJob conf (clientDo d r)).1 =
        .failure ("Failed to execute request: " ++
          "Client.Timeout exceeded while awaiting headers")) ∧
    (60 < d →
      legacyClientDo d r = .transportErr "context deadline exceeded") := by
  refine ⟨rfl, fun h => ?_, fun h => ?_⟩
  · have hcut : clientDo d r =
        .transportErr "Client.Timeout exceeded while awaiting headers" := by
      simp [clientDo, httpClientTimeoutSeconds, h]
    rw [hcut]
    rfl
  · have h30 : legacyRequestTimeoutSeconds < d := by
      simp only [legacyRequestTimeoutSeconds]
      omega
    simp [legacyClientDo, h30]

/-- Witness for C9 at 61 seconds: the bound is 60, and a 61-second
round trip is a timeout failure in the multi-job runner and a deadline
error in the legacy runner. -/
theorem http_timeout_bound_witness :
    httpClientTimeoutSeconds = 60 ∧
    (httpJob confH (clientDo 61 (.response 200 "200 OK"))).1 =
      .failure ("Failed to execute request: " ++
        "Client.Timeout exceeded while awaiting headers") ∧
    legacyClientDo 61 (.response 200 "200 OK") =
      .transportErr "context deadline exceeded" :=
  ⟨(http_timeout_bound confH 61 (.response 200 "200 OK")).1,
   (http_timeout_bound confH 61 (.response 200 "200 OK")).2.1 (by decide),
   (http_timeout_bound confH 61 (.response 200 "200 OK")).2.2 (by decide)⟩

end EasypanelCron
